import Mathlib

/-!
Verification development for the `mqtt_relay_cover` Home Assistant integration
(`src/mqtt_relay_cover.py`, class `MQTTRelayCover`).

The embedding models:
* the cover state (`_attr_is_opening`, `_attr_is_closing`,
  `_attr_current_cover_position`) together with a logical monotonic clock
  (`time.monotonic()` advanced exactly by the `asyncio.sleep` calls, the
  idealized-scheduler reading of the time-based estimation loop);
* the operations `async_stop_cover`, `async_set_cover_position`,
  `async_open_cover`, `async_close_cover`, `async_calibrate`,
  `async_added_to_hass`, and the time-conversion logic of `__init__`;
* the observable effects (MQTT publish attempts and publishes, sleeps,
  persistence writes, state announcements) as an event trace.

External interference during a movement (another call's unconditional
`async_stop_cover` pre-amble clearing the direction flags while the loop is
sleeping) is modelled by an `interrupt : Option Nat` parameter: the flags read
as cleared from loop-condition check number `k` onwards.  This is the only
external write the Python code permits while the loop holds `self._lock`.
-/

/-- `_CHECK_INTERVAL = 0.1` seconds. -/
def checkInterval : ℚ := 1/10

/-- `_MIN_POSITION = 0`. -/
def minPosition : ℤ := 0

/-- `_MAX_POSITION = 100`. -/
def maxPosition : ℤ := 100

/-- `_MAX_PERCENT = 100`. -/
def maxPercent : ℚ := 100

/-- `_MILISECONDS_IN_SECOND = 1000.0`. -/
def milisecondsInSecond : ℚ := 1000

/-- Static configuration of one cover plus the environment oracles: whether the
MQTT transport is available and whether the persistence write raises. -/
structure CoverConfig where
  unique_id : String
  opening_time : ℚ
  closing_time : ℚ
  payload_open : String
  payload_close : String
  payload_stop : String
  mqtt_available : Bool
  persist_fails : Bool
deriving DecidableEq

/-- Mutable cover state: the two direction flags, the position estimate and the
logical monotonic clock. -/
structure CoverState where
  is_opening : Bool
  is_closing : Bool
  position : ℚ
  clock : ℚ
deriving DecidableEq

/-- Observable effects of the operations, in order. -/
inductive Event where
  | attempt : String → Event
  | publish : String → Event
  | logError : Event
  | sleep : ℚ → Event
  | persist : List (String × ℚ) → Event
  | writeState : Event
deriving DecidableEq

/-- A Position Store document: a mapping from cover identifier to position
(`{self.unique_id: position}` dictionaries). -/
abbrev StoreDoc := List (String × ℚ)

/-- `__async_publish`: check `__isMQTTAvailable`, then either publish the
payload or log an error.  The `attempt` event records that a publish of this
payload was attempted. -/
def publishEvents (cfg : CoverConfig) (payload : String) : List Event :=
  Event.attempt payload ::
    (if cfg.mqtt_available then [Event.publish payload] else [Event.logError])

/-- `async_stop_cover`: clear both direction flags, publish the STOP payload,
announce the new state. -/
def async_stop_cover (cfg : CoverConfig) (s : CoverState) :
    CoverState × List Event :=
  ({ s with is_opening := false, is_closing := false },
   publishEvents cfg cfg.payload_stop ++ [Event.writeState])

/-- Whether the direction flags set in the pre-loop step are still set at
loop-condition check number `i`: `interrupt = some k` means an external
`async_stop_cover` cleared both flags before check `k`. -/
def flagsLive (interrupt : Option ℕ) (i : ℕ) : Bool :=
  match interrupt with
  | none => true
  | some k => decide (i < k)

/-- The first conjunct of the loop condition:
`(now := time.monotonic()) < start_moving_time + movement_time`. -/
def timeCond (start mt clock : ℚ) : Bool :=
  decide (clock < start + mt)

/-- The second conjunct of the loop condition:
`(is_opening and position < target) or (is_closing and position > target)`,
with the flags as set in the pre-loop step unless externally cleared. -/
def dirCond (interrupt : Option ℕ) (openDir : Bool) (target : ℚ) (i : ℕ)
    (pos : ℚ) : Bool :=
  flagsLive interrupt i &&
    (if openDir then decide (pos < target) else decide (target < pos))

/-- Result of the sampling loop: final position estimate, final clock, number
of executed loop bodies, and the values of the two loop-condition conjuncts at
the exit check. -/
structure LoopOut where
  pos : ℚ
  clock : ℚ
  iters : ℕ
  timeOk : Bool
  dirOk : Bool
deriving DecidableEq

/-- The sampling loop of `async_set_cover_position`.  Each iteration sleeps one
tick (advancing the clock by `checkInterval`) and recomputes the estimate from
the `now` captured at the preceding condition check (the Python walrus
operator), so the estimate update lags the clock by one tick.  `fuel` bounds
the recursion; `fuelFor` below always supplies enough for the time condition to
fail first. -/
def moveLoop (interrupt : Option ℕ) (openDir : Bool)
    (initial target start mt : ℚ) :
    ℕ → ℕ → ℚ → ℚ → LoopOut
  | 0, i, clock, pos =>
    ⟨pos, clock, i, timeCond start mt clock,
     dirCond interrupt openDir target i pos⟩
  | fuel + 1, i, clock, pos =>
    if timeCond start mt clock && dirCond interrupt openDir target i pos then
      moveLoop interrupt openDir initial target start mt fuel (i + 1)
        (clock + checkInterval)
        (if openDir then min (initial + (clock - start) / mt * maxPercent) target
         else max (initial - (clock - start) / mt * maxPercent) target)
    else ⟨pos, clock, i, timeCond start mt clock,
          dirCond interrupt openDir target i pos⟩

/-- `max(min(kwargs.get("position", 0), _MAX_POSITION), _MIN_POSITION)`. -/
def clampTarget (t : ℤ) : ℤ :=
  max (min t maxPosition) minPosition

/-- Enough fuel for the sampling loop: the time condition forces at most
`mt / checkInterval` iterations. -/
def fuelFor (mt : ℚ) : ℕ :=
  (⌈mt * 10⌉).toNat + 1

/-- The per-iteration observable effects of the sampling loop:
`asyncio.sleep(_CHECK_INTERVAL)` then `async_write_ha_state()`. -/
def loopEvents : ℕ → List Event
  | 0 => []
  | n + 1 => Event.sleep checkInterval :: Event.writeState :: loopEvents n

/-- Result of a `async_set_cover_position` call: final state, effect trace,
loop-iteration count, exit-condition values, and whether the call returned
without raising (`ok = false of the persistence write raised`). -/
structure MoveRes where
  state : CoverState
  events : List Event
  iters : ℕ
  exitTimeOk : Bool
  exitDirOk : Bool
  ok : Bool

/-- `async_set_cover_position`: the unconditional `async_stop_cover` pre-amble,
then (inside the lock) clamp the target, record the initial position and start
time, set the direction flags, publish the matching movement payload, run the
sampling loop, persist `{unique_id: position}`, and in a `finally` block run
`async_stop_cover` again. -/
def async_set_cover_position (cfg : CoverConfig) (interrupt : Option ℕ)
    (targetReq : ℤ) (s : CoverState) : MoveRes :=
  let s1 := (async_stop_cover cfg s).1
  let ev1 := (async_stop_cover cfg s).2
  let target : ℚ := (clampTarget targetReq : ℤ)
  let initial := s1.position
  let start := s1.clock
  let openDir := decide (initial < target)
  let mt := if openDir then cfg.opening_time else cfg.closing_time
  let ev2 := publishEvents cfg
    (if openDir then cfg.payload_open else cfg.payload_close)
  let out := moveLoop interrupt openDir initial target start mt
    (fuelFor mt) 0 start initial
  let s3 : CoverState :=
    { is_opening := openDir, is_closing := !openDir,
      position := out.pos, clock := out.clock }
  let persistEv := if cfg.persist_fails then []
    else [Event.persist [(cfg.unique_id, out.pos)]]
  let s4 := (async_stop_cover cfg s3).1
  let ev4 := (async_stop_cover cfg s3).2
  { state := s4,
    events := ev1 ++ ev2 ++ loopEvents out.iters ++ persistEv ++ ev4,
    iters := out.iters,
    exitTimeOk := out.timeOk,
    exitDirOk := out.dirOk,
    ok := !cfg.persist_fails }

/-- `async_open_cover`: `async_set_cover_position(position=_MAX_POSITION)`. -/
def async_open_cover (cfg : CoverConfig) (interrupt : Option ℕ)
    (s : CoverState) : MoveRes :=
  async_set_cover_position cfg interrupt maxPosition s

/-- `async_close_cover`: `async_set_cover_position(position=_MIN_POSITION)`. -/
def async_close_cover (cfg : CoverConfig) (interrupt : Option ℕ)
    (s : CoverState) : MoveRes :=
  async_set_cover_position cfg interrupt minPosition s

/-- `async_calibrate`: under the lock, clear both flags, publish OPEN, sleep
`opening_time + 1`, publish STOP, sleep 1, publish CLOSE, sleep
`closing_time + 1`, publish STOP, sleep 1, set the position to 0, persist
`{unique_id: 0}`, announce the state.  The third component records whether the
persistence write succeeded (on failure the final `async_write_ha_state` is
not reached). -/
def async_calibrate (cfg : CoverConfig) (s : CoverState) :
    CoverState × List Event × Bool :=
  let ev := publishEvents cfg cfg.payload_open
      ++ [Event.sleep (cfg.opening_time + 1)]
      ++ publishEvents cfg cfg.payload_stop ++ [Event.sleep 1]
      ++ publishEvents cfg cfg.payload_close
      ++ [Event.sleep (cfg.closing_time + 1)]
      ++ publishEvents cfg cfg.payload_stop ++ [Event.sleep 1]
  let s2 : CoverState :=
    { is_opening := false, is_closing := false, position := 0,
      clock := s.clock + (cfg.opening_time + 1) + 1 + (cfg.closing_time + 1) + 1 }
  (s2,
   (if cfg.persist_fails then ev
    else ev ++ [Event.persist [(cfg.unique_id, (0 : ℚ))], Event.writeState]),
   !cfg.persist_fails)

/-- `__init__`: `self._opening_time = entity_config.get(CONF_OPENING_TIME, 0)
/ _MILISECONDS_IN_SECOND` (configured value in milliseconds). -/
def initOpeningTime (opening_ms : Option ℚ) : ℚ :=
  opening_ms.getD 0 / milisecondsInSecond

/-- `__init__`: `self._closing_time =
entity_config.get(CONF_CLOSING_TIME, self._opening_time)
/ _MILISECONDS_IN_SECOND` — note that the default is the already-converted
`self._opening_time`, which is then divided by 1000 again. -/
def initClosingTime (opening_ms closing_ms : Option ℚ) : ℚ :=
  closing_ms.getD (initOpeningTime opening_ms) / milisecondsInSecond

/-- `async_added_to_hass`: `stored_data = await self._store.async_load()` then
`self._attr_current_cover_position = stored_data.get(self.unique_id, 0)`.
The external `Store.async_load` yields `None` when no document was ever saved
(modelled by the `none` case); `None.get(...)` raises `AttributeError`.  The
direction flags come from `__init__` (both `False`) and are not touched. -/
def async_added_to_hass (uid : String) (stored : Option StoreDoc) (clock : ℚ) :
    Except String CoverState :=
  match stored with
  | none => Except.error "AttributeError: NoneType object has no attribute get"
  | some d =>
      Except.ok { is_opening := false, is_closing := false,
                  position := (d.lookup uid).getD 0, clock := clock }

/-- Modelled from the spec: the external Position Store's `async_save`
overwrites the whole stored document with the given one ("overwritten, not
merged" per the persistence interface description). -/
def storeSave (_old doc : StoreDoc) : StoreDoc :=
  doc

/-- The operator-facing operations on one cover, each movement carrying its
possible external interruption point. -/
inductive CoverOp where
  | moveTo : ℤ → Option ℕ → CoverOp
  | openCover : Option ℕ → CoverOp
  | closeCover : Option ℕ → CoverOp
  | stopCover : CoverOp
  | calibrate : CoverOp
deriving DecidableEq

/-- One operation's effect on the cover state. -/
def runOp (cfg : CoverConfig) (s : CoverState) : CoverOp → CoverState
  | CoverOp.moveTo t intr => (async_set_cover_position cfg intr t s).state
  | CoverOp.openCover intr => (async_open_cover cfg intr s).state
  | CoverOp.closeCover intr => (async_close_cover cfg intr s).state
  | CoverOp.stopCover => (async_stop_cover cfg s).1
  | CoverOp.calibrate => (async_calibrate cfg s).1

/-- The quiescent states after each operation of a sequence. -/
def runStates (cfg : CoverConfig) (s : CoverState) :
    List CoverOp → List CoverState
  | [] => []
  | op :: ops => runOp cfg s op :: runStates cfg (runOp cfg s op) ops

/-- The state after a whole sequence of operations. -/
def runAll (cfg : CoverConfig) (s : CoverState) (ops : List CoverOp) :
    CoverState :=
  List.foldl (runOp cfg) s ops

/-- Number of publishes of the STOP payload in a trace. -/
def countStopPublishes (cfg : CoverConfig) (evs : List Event) : ℕ :=
  (evs.filter (fun e => decide (e = Event.publish cfg.payload_stop))).length

/-- Number of persistence writes in a trace. -/
def countPersists (evs : List Event) : ℕ :=
  (evs.filter (fun e => match e with
    | Event.persist _ => true
    | _ => false)).length

/-- A concrete configuration: 10-second travel budgets, transport available,
persistence reliable. -/
def cfg0 : CoverConfig :=
  { unique_id := "cover1", opening_time := 10, closing_time := 10,
    payload_open := "OPEN", payload_close := "CLOSE", payload_stop := "STOP",
    mqtt_available := true, persist_fails := false }

/-- A concrete start state: fully closed, idle, clock at 0. -/
def s0 : CoverState :=
  { is_opening := false, is_closing := false, position := 0, clock := 0 }

/-! ### Helper lemmas about the sampling loop -/

theorem moveLoop_exit_dir (interrupt : Option ℕ) (openDir : Bool)
    (initial target start mt : ℚ) (fuel i : ℕ) (clock pos : ℚ)
    (h : dirCond interrupt openDir target i pos = false) :
    moveLoop interrupt openDir initial target start mt fuel i clock pos =
      ⟨pos, clock, i, timeCond start mt clock, false⟩ := by
  cases fuel with
  | zero => simp [moveLoop, h]
  | succ fuel => simp [moveLoop, h]

theorem moveLoop_exit_time (interrupt : Option ℕ) (openDir : Bool)
    (initial target start mt : ℚ) (fuel i : ℕ) (clock pos : ℚ)
    (h : timeCond start mt clock = false) :
    moveLoop interrupt openDir initial target start mt fuel i clock pos =
      ⟨pos, clock, i, false, dirCond interrupt openDir target i pos⟩ := by
  cases fuel with
  | zero => simp [moveLoop, h]
  | succ fuel => simp [moveLoop, h]

theorem timeCond_zero_budget (start : ℚ) : timeCond start 0 start = false := by
  simp [timeCond]

theorem posUpdate_bounds (openDir : Bool) (initial target progress : ℚ)
    (hpr : 0 ≤ progress) (hi0 : 0 ≤ initial) (hi1 : initial ≤ 100)
    (ht0 : 0 ≤ target) (ht1 : target ≤ 100) :
    0 ≤ (if openDir then min (initial + progress) target
         else max (initial - progress) target) ∧
    (if openDir then min (initial + progress) target
     else max (initial - progress) target) ≤ 100 := by
  cases openDir with
  | false =>
    constructor
    · exact le_trans ht0 (le_max_right _ _)
    · exact max_le (by linarith) ht1
  | true =>
    constructor
    · exact le_min (by linarith) ht0
    · exact le_trans (min_le_right _ _) ht1

theorem moveLoop_pos_bounds (interrupt : Option ℕ) (openDir : Bool)
    (initial target start mt : ℚ) (hmt : 0 ≤ mt)
    (hi0 : 0 ≤ initial) (hi1 : initial ≤ 100)
    (ht0 : 0 ≤ target) (ht1 : target ≤ 100) :
    ∀ (fuel i : ℕ) (clock pos : ℚ), start ≤ clock → 0 ≤ pos → pos ≤ 100 →
      0 ≤ (moveLoop interrupt openDir initial target start mt
            fuel i clock pos).pos ∧
      (moveLoop interrupt openDir initial target start mt
        fuel i clock pos).pos ≤ 100 := by
  intro fuel
  induction fuel with
  | zero =>
    intro i clock pos hsc hp0 hp1
    exact ⟨hp0, hp1⟩
  | succ fuel ih =>
    intro i clock pos hsc hp0 hp1
    rw [moveLoop]
    split
    · have hpr : 0 ≤ (clock - start) / mt * maxPercent := by
        apply mul_nonneg (div_nonneg (by linarith) hmt)
        norm_num [maxPercent]
      have hb := posUpdate_bounds openDir initial target
        ((clock - start) / mt * maxPercent) hpr hi0 hi1 ht0 ht1
      have hsc' : start ≤ clock + checkInterval := by
        have : (0:ℚ) ≤ checkInterval := by norm_num [checkInterval]
        linarith
      exact ih (i + 1) (clock + checkInterval) _ hsc' hb.1 hb.2
    · exact ⟨hp0, hp1⟩

theorem clampTarget_nonneg (t : ℤ) : 0 ≤ clampTarget t :=
  le_max_right _ _

theorem clampTarget_le_100 (t : ℤ) : clampTarget t ≤ 100 :=
  max_le (le_trans (min_le_right _ _) (by norm_num [maxPosition]))
    (by norm_num [minPosition])

theorem set_cover_position_bounds (cfg : CoverConfig) (interrupt : Option ℕ)
    (t : ℤ) (s : CoverState)
    (hot : 0 ≤ cfg.opening_time) (hct : 0 ≤ cfg.closing_time)
    (h0 : 0 ≤ s.position) (h1 : s.position ≤ 100) :
    0 ≤ (async_set_cover_position cfg interrupt t s).state.position ∧
    (async_set_cover_position cfg interrupt t s).state.position ≤ 100 := by
  have ht0 : (0:ℚ) ≤ ((clampTarget t : ℤ) : ℚ) := by
    exact_mod_cast clampTarget_nonneg t
  have ht1 : ((clampTarget t : ℤ) : ℚ) ≤ 100 := by
    exact_mod_cast clampTarget_le_100 t
  simp only [async_set_cover_position, async_stop_cover]
  exact moveLoop_pos_bounds interrupt _ _ _ _ _
    (by split <;> assumption) h0 h1 ht0 ht1 _ _ _ _ le_rfl h0 h1

theorem runOp_bounds (cfg : CoverConfig) (op : CoverOp) (s : CoverState)
    (hot : 0 ≤ cfg.opening_time) (hct : 0 ≤ cfg.closing_time)
    (h0 : 0 ≤ s.position) (h1 : s.position ≤ 100) :
    0 ≤ (runOp cfg s op).position ∧ (runOp cfg s op).position ≤ 100 := by
  cases op with
  | moveTo t intr => exact set_cover_position_bounds cfg intr t s hot hct h0 h1
  | openCover intr =>
    exact set_cover_position_bounds cfg intr maxPosition s hot hct h0 h1
  | closeCover intr =>
    exact set_cover_position_bounds cfg intr minPosition s hot hct h0 h1
  | stopCover => exact ⟨h0, h1⟩
  | calibrate => exact ⟨le_refl 0, show (0:ℚ) ≤ 100 by norm_num⟩

theorem runOp_idle (cfg : CoverConfig) (op : CoverOp) (s : CoverState) :
    (runOp cfg s op).is_opening = false ∧
    (runOp cfg s op).is_closing = false := by
  cases op <;> exact ⟨rfl, rfl⟩

theorem persist_not_mem_publishEvents (cfg : CoverConfig) (p : String)
    (doc : StoreDoc) : Event.persist doc ∉ publishEvents cfg p := by
  simp only [publishEvents]
  cases cfg.mqtt_available <;> simp

theorem persist_not_mem_loopEvents (n : ℕ) (doc : StoreDoc) :
    Event.persist doc ∉ loopEvents n := by
  induction n with
  | zero => simp [loopEvents]
  | succ n ih => simp [loopEvents, ih]

/-! ### The claims -/

/-- C1: with `openingTime = 10` s, a `moveTo(100)` issued from position 0 that
runs uninterrupted exits the sampling loop via the time-budget condition
(elapsed time no longer below the travel budget) while the target-reached
condition is still true at the exit check, and the final position estimate is
within one tick of travel (1 position unit) of 100. -/
theorem C1_move_full_open_exits_on_time_budget :
    (async_set_cover_position cfg0 none 100 s0).exitTimeOk = false ∧
    (async_set_cover_position cfg0 none 100 s0).exitDirOk = true ∧
    (100 : ℚ) - 1 ≤ (async_set_cover_position cfg0 none 100 s0).state.position ∧
    (async_set_cover_position cfg0 none 100 s0).state.position ≤ 100 + 1 :=
  of_decide_eq_true (by with_unfolding_all rfl)

/-- C3: every `async_set_cover_position` call, for every target, interruption
point, transport availability and persistence outcome, returns with both
direction flags cleared and with a final full `async_stop_cover` trace (which
begins with an attempted STOP publish) after everything else. -/
theorem C3_finally_always_stops (cfg : CoverConfig) (interrupt : Option ℕ)
    (t : ℤ) (s : CoverState) :
    (async_set_cover_position cfg interrupt t s).state.is_opening = false ∧
    (async_set_cover_position cfg interrupt t s).state.is_closing = false ∧
    ∃ pre, (async_set_cover_position cfg interrupt t s).events =
      pre ++ (Event.attempt cfg.payload_stop ::
        ((if cfg.mqtt_available then [Event.publish cfg.payload_stop]
          else [Event.logError]) ++ [Event.writeState])) :=
  ⟨rfl, rfl, _, rfl⟩

/-- C6: the claim that a missing `closing_time` configuration makes the
effective closing duration equal the effective opening duration fails on the
code: `__init__` uses the already-converted `self._opening_time` (seconds) as
the default and divides it by 1000 again, so with `opening_time = 10000` ms
the effective opening duration is 10 s but the defaulted effective closing
duration is 1/100 s. -/
theorem C6_closing_time_default_divides_twice :
    initOpeningTime (some 10000) = 10 ∧
    initClosingTime (some 10000) none = 1 / 100 ∧
    initClosingTime (some 10000) none ≠ initOpeningTime (some 10000) := by
  refine ⟨?_, ?_, ?_⟩ <;>
    norm_num [initOpeningTime, initClosingTime, milisecondsInSecond]

/-- C7: startup initialization from the Position Store.  The stored-value cases
behave as claimed (a stored 37 yields position 37 with both flags false, an
absent key yields 0), but when the store document itself is absent
(`Store.async_load` returns `None` on a fresh install) the code calls
`.get` on `None` and raises `AttributeError` instead of defaulting to 0, so
the initialization does fail. -/
theorem C7_startup_load_crashes_on_absent_document :
    async_added_to_hass "cover1" (some [("cover1", 37)]) 0 =
      Except.ok { is_opening := false, is_closing := false,
                  position := 37, clock := 0 } ∧
    async_added_to_hass "cover1" (some [("other", 5)]) 0 =
      Except.ok { is_opening := false, is_closing := false,
                  position := 0, clock := 0 } ∧
    async_added_to_hass "cover1" none 0 =
      Except.error "AttributeError: NoneType object has no attribute get" := by
  refine ⟨?_, ?_, rfl⟩ <;> with_unfolding_all rfl

/-- C9: `async_stop_cover` clears both direction flags, publishes the STOP
payload (transport available), announces the new state, and leaves the
position estimate unchanged. -/
theorem C9_stop_clears_flags_keeps_position (cfg : CoverConfig)
    (s : CoverState) (hav : cfg.mqtt_available = true) :
    (async_stop_cover cfg s).1.is_opening = false ∧
    (async_stop_cover cfg s).1.is_closing = false ∧
    (async_stop_cover cfg s).1.position = s.position ∧
    (async_stop_cover cfg s).2 =
      [Event.attempt cfg.payload_stop, Event.publish cfg.payload_stop,
       Event.writeState] := by
  refine ⟨rfl, rfl, rfl, ?_⟩
  simp [async_stop_cover, publishEvents, hav]

/-- Witness for C9 at a concrete configuration and state. -/
theorem C9_stop_clears_flags_keeps_position_witness :
    cfg0.mqtt_available = true ∧
    ((async_stop_cover cfg0 s0).1.is_opening = false ∧
     (async_stop_cover cfg0 s0).1.is_closing = false ∧
     (async_stop_cover cfg0 s0).1.position = s0.position ∧
     (async_stop_cover cfg0 s0).2 =
       [Event.attempt cfg0.payload_stop, Event.publish cfg0.payload_stop,
        Event.writeState]) :=
  ⟨rfl, C9_stop_clears_flags_keeps_position cfg0 s0 rfl⟩

/-- C2: for every sequence of operations on one cover starting idle with a
position in `[0, 100]` — including a `moveTo` interrupted at any tick by an
overlapping `moveTo`, modelled by the `interrupt` parameter — the position
estimate stays in `[0, 100]` at every quiescent point and the cover ends with
both direction flags false. -/
theorem C2_sequence_bounds_and_idle (cfg : CoverConfig) (ops : List CoverOp)
    (s : CoverState)
    (hot : 0 ≤ cfg.opening_time) (hct : 0 ≤ cfg.closing_time)
    (hpf : cfg.persist_fails = false)
    (h0 : 0 ≤ s.position) (h1 : s.position ≤ 100)
    (ho : s.is_opening = false) (hc : s.is_closing = false) :
    (∀ s' ∈ runStates cfg s ops, 0 ≤ s'.position ∧ s'.position ≤ 100) ∧
    (runAll cfg s ops).is_opening = false ∧
    (runAll cfg s ops).is_closing = false := by
  induction ops generalizing s with
  | nil =>
    refine ⟨?_, ho, hc⟩
    intro s' hs'
    simp [runStates] at hs'
  | cons op ops ih =>
    have hop := runOp_bounds cfg op s hot hct h0 h1
    have hid := runOp_idle cfg op s
    have h' := ih (runOp cfg s op) hop.1 hop.2 hid.1 hid.2
    refine ⟨?_, ?_, ?_⟩
    · intro s' hs'
      rw [runStates] at hs'
      rcases List.mem_cons.mp hs' with h | h
      · subst h; exact hop
      · exact h'.1 s' h
    · simpa [runAll, List.foldl_cons] using h'.2.1
    · simpa [runAll, List.foldl_cons] using h'.2.2

/-- Witness for C2: two overlapping `moveTo` calls (the first interrupted at
its third condition check by the second call's stop pre-amble). -/
theorem C2_sequence_bounds_and_idle_witness :
    ((0:ℚ) ≤ cfg0.opening_time ∧ (0:ℚ) ≤ cfg0.closing_time ∧
     cfg0.persist_fails = false ∧
     (0:ℚ) ≤ s0.position ∧ s0.position ≤ 100 ∧
     s0.is_opening = false ∧ s0.is_closing = false) ∧
    ((∀ s' ∈ runStates cfg0 s0
        [CoverOp.moveTo 50 (some 3), CoverOp.moveTo 80 none],
        0 ≤ s'.position ∧ s'.position ≤ 100) ∧
     (runAll cfg0 s0 [CoverOp.moveTo 50 (some 3),
        CoverOp.moveTo 80 none]).is_opening = false ∧
     (runAll cfg0 s0 [CoverOp.moveTo 50 (some 3),
        CoverOp.moveTo 80 none]).is_closing = false) :=
  ⟨⟨of_decide_eq_true (by with_unfolding_all rfl),
    of_decide_eq_true (by with_unfolding_all rfl), rfl,
    of_decide_eq_true (by with_unfolding_all rfl),
    of_decide_eq_true (by with_unfolding_all rfl), rfl, rfl⟩,
   C2_sequence_bounds_and_idle cfg0
     [CoverOp.moveTo 50 (some 3), CoverOp.moveTo 80 none] s0
     (of_decide_eq_true (by with_unfolding_all rfl))
     (of_decide_eq_true (by with_unfolding_all rfl)) rfl
     (of_decide_eq_true (by with_unfolding_all rfl))
     (of_decide_eq_true (by with_unfolding_all rfl)) rfl rfl⟩

/-- C5: a `async_calibrate` run with the transport available and persistence
working produces exactly the trace OPEN, sleep `openingTime + 1`, STOP,
sleep 1, CLOSE, sleep `closingTime + 1`, STOP, sleep 1, followed by the single
persistence write of value 0 at the end, and leaves the position at 0. -/
theorem C5_calibrate_trace (cfg : CoverConfig) (s : CoverState)
    (hav : cfg.mqtt_available = true) (hpf : cfg.persist_fails = false) :
    (async_calibrate cfg s).1.position = 0 ∧
    (async_calibrate cfg s).2.1 =
      [Event.attempt cfg.payload_open, Event.publish cfg.payload_open,
       Event.sleep (cfg.opening_time + 1),
       Event.attempt cfg.payload_stop, Event.publish cfg.payload_stop,
       Event.sleep 1,
       Event.attempt cfg.payload_close, Event.publish cfg.payload_close,
       Event.sleep (cfg.closing_time + 1),
       Event.attempt cfg.payload_stop, Event.publish cfg.payload_stop,
       Event.sleep 1,
       Event.persist [(cfg.unique_id, 0)], Event.writeState] ∧
    countPersists (async_calibrate cfg s).2.1 = 1 := by
  refine ⟨rfl, ?_, ?_⟩ <;>
    simp [async_calibrate, publishEvents, countPersists, hav, hpf]

/-- Witness for C5 at a concrete configuration and state. -/
theorem C5_calibrate_trace_witness :
    (cfg0.mqtt_available = true ∧ cfg0.persist_fails = false) ∧
    ((async_calibrate cfg0 s0).1.position = 0 ∧
     (async_calibrate cfg0 s0).2.1 =
       [Event.attempt cfg0.payload_open, Event.publish cfg0.payload_open,
        Event.sleep (cfg0.opening_time + 1),
        Event.attempt cfg0.payload_stop, Event.publish cfg0.payload_stop,
        Event.sleep 1,
        Event.attempt cfg0.payload_close, Event.publish cfg0.payload_close,
        Event.sleep (cfg0.closing_time + 1),
        Event.attempt cfg0.payload_stop, Event.publish cfg0.payload_stop,
        Event.sleep 1,
        Event.persist [(cfg0.unique_id, 0)], Event.writeState] ∧
     countPersists (async_calibrate cfg0 s0).2.1 = 1) :=
  ⟨⟨rfl, rfl⟩, C5_calibrate_trace cfg0 s0 rfl rfl⟩

/-- C4: a `moveTo` whose target equals the current position leaves the
position estimate unchanged, publishes the STOP payload exactly twice (the
pre-amble and the final stop), and performs exactly one persistence write,
with the current position as its value. -/
theorem C4_target_equals_position (cfg : CoverConfig) (s : CoverState) (p : ℤ)
    (h0 : 0 ≤ p) (h1 : p ≤ 100) (hpos : s.position = (p : ℚ))
    (hav : cfg.mqtt_available = true) (hpf : cfg.persist_fails = false)
    (hne : cfg.payload_close ≠ cfg.payload_stop) :
    (async_set_cover_position cfg none p s).state.position = (p : ℚ) ∧
    countStopPublishes cfg (async_set_cover_position cfg none p s).events = 2 ∧
    countPersists (async_set_cover_position cfg none p s).events = 1 ∧
    Event.persist [(cfg.unique_id, (p : ℚ))] ∈
      (async_set_cover_position cfg none p s).events := by
  have hclamp : clampTarget p = p := by
    simp only [clampTarget, maxPosition, minPosition]
    omega
  simp only [async_set_cover_position, async_stop_cover, hclamp, hpos]
  rw [moveLoop_exit_dir _ _ _ _ _ _ _ _ _ _ (by simp [dirCond, flagsLive])]
  simp [countStopPublishes, countPersists, publishEvents, loopEvents,
    hav, hpf, hne, Ne.symm hne]

/-- Witness for C4 at position 40 of a concrete cover. -/
theorem C4_target_equals_position_witness :
    ((0:ℤ) ≤ 40 ∧ (40:ℤ) ≤ 100 ∧
     (CoverState.mk false false 40 0).position = ((40:ℤ) : ℚ) ∧
     cfg0.mqtt_available = true ∧ cfg0.persist_fails = false ∧
     cfg0.payload_close ≠ cfg0.payload_stop) ∧
    ((async_set_cover_position cfg0 none 40
        (CoverState.mk false false 40 0)).state.position = ((40:ℤ) : ℚ) ∧
     countStopPublishes cfg0 (async_set_cover_position cfg0 none 40
        (CoverState.mk false false 40 0)).events = 2 ∧
     countPersists (async_set_cover_position cfg0 none 40
        (CoverState.mk false false 40 0)).events = 1 ∧
     Event.persist [(cfg0.unique_id, ((40:ℤ) : ℚ))] ∈
       (async_set_cover_position cfg0 none 40
         (CoverState.mk false false 40 0)).events) :=
  ⟨⟨by decide, by decide, of_decide_eq_true (by with_unfolding_all rfl),
    rfl, rfl, by decide⟩,
   C4_target_equals_position cfg0 (CoverState.mk false false 40 0) 40
     (by decide) (by decide) (of_decide_eq_true (by with_unfolding_all rfl))
     rfl rfl (by decide)⟩

/-- C8: with a zero travel budget configured, a `moveTo` executes zero
sampling-loop bodies (so the division by the travel budget is never
evaluated), leaves the position estimate unchanged, and still performs the
persistence write and both STOP-publish runs (the pre-amble and the final
stop). -/
theorem C8_zero_travel_budget (cfg : CoverConfig) (interrupt : Option ℕ)
    (t : ℤ) (s : CoverState)
    (hot : cfg.opening_time = 0) (hct : cfg.closing_time = 0)
    (hpf : cfg.persist_fails = false) :
    (async_set_cover_position cfg interrupt t s).iters = 0 ∧
    (async_set_cover_position cfg interrupt t s).state.position = s.position ∧
    Event.persist [(cfg.unique_id, s.position)] ∈
      (async_set_cover_position cfg interrupt t s).events ∧
    ∃ mid, (async_set_cover_position cfg interrupt t s).events =
      (publishEvents cfg cfg.payload_stop ++ [Event.writeState]) ++ mid ++
      (publishEvents cfg cfg.payload_stop ++ [Event.writeState]) := by
  simp only [async_set_cover_position, async_stop_cover, hot, hct, ite_self]
  rw [moveLoop_exit_time _ _ _ _ _ _ _ _ _ _ (timeCond_zero_budget _)]
  refine ⟨rfl, rfl, ?_, ?_⟩
  · simp [hpf, publishEvents, loopEvents]
  · refine ⟨publishEvents cfg
      (if decide (s.position < ((clampTarget t : ℤ) : ℚ)) = true
       then cfg.payload_open else cfg.payload_close) ++
      [Event.persist [(cfg.unique_id, s.position)]], ?_⟩
    simp [hpf, loopEvents, List.append_assoc]

/-- Witness for C8: a cover configured with zero travel budgets. -/
theorem C8_zero_travel_budget_witness :
    ((CoverConfig.mk "c0" 0 0 "OPEN" "CLOSE" "STOP" true false).opening_time
        = 0 ∧
     (CoverConfig.mk "c0" 0 0 "OPEN" "CLOSE" "STOP" true false).closing_time
        = 0 ∧
     (CoverConfig.mk "c0" 0 0 "OPEN" "CLOSE" "STOP" true false).persist_fails
        = false) ∧
    ((async_set_cover_position
        (CoverConfig.mk "c0" 0 0 "OPEN" "CLOSE" "STOP" true false)
        none 70 s0).iters = 0 ∧
     (async_set_cover_position
        (CoverConfig.mk "c0" 0 0 "OPEN" "CLOSE" "STOP" true false)
        none 70 s0).state.position = s0.position ∧
     Event.persist
       [((CoverConfig.mk "c0" 0 0 "OPEN" "CLOSE" "STOP" true false).unique_id,
         s0.position)] ∈
       (async_set_cover_position
         (CoverConfig.mk "c0" 0 0 "OPEN" "CLOSE" "STOP" true false)
         none 70 s0).events ∧
     ∃ mid, (async_set_cover_position
         (CoverConfig.mk "c0" 0 0 "OPEN" "CLOSE" "STOP" true false)
         none 70 s0).events =
       (publishEvents
          (CoverConfig.mk "c0" 0 0 "OPEN" "CLOSE" "STOP" true false)
          (CoverConfig.mk "c0" 0 0 "OPEN" "CLOSE" "STOP" true false).payload_stop
          ++ [Event.writeState]) ++ mid ++
       (publishEvents
          (CoverConfig.mk "c0" 0 0 "OPEN" "CLOSE" "STOP" true false)
          (CoverConfig.mk "c0" 0 0 "OPEN" "CLOSE" "STOP" true false).payload_stop
          ++ [Event.writeState])) :=
  ⟨⟨rfl, rfl, rfl⟩,
   C8_zero_travel_budget
     (CoverConfig.mk "c0" 0 0 "OPEN" "CLOSE" "STOP" true false)
     none 70 s0 rfl rfl rfl⟩

/-- C10: every persistence write performed by `async_set_cover_position` or
`async_calibrate` saves a document holding only the single key-value pair
`{unique_id: position}` (the final position estimate, 0 for calibration), and
since the external store replaces the whole document, any previously persisted
position of a different cover identifier is no longer present afterwards. -/
theorem C10_persist_single_key (cfg : CoverConfig) (interrupt : Option ℕ)
    (t : ℤ) (s : CoverState) (prior : StoreDoc) (other : String)
    (hne : other ≠ cfg.unique_id) :
    (∀ doc, Event.persist doc ∈
        (async_set_cover_position cfg interrupt t s).events →
      (storeSave prior doc).lookup cfg.unique_id =
        some (async_set_cover_position cfg interrupt t s).state.position ∧
      (storeSave prior doc).lookup other = none) ∧
    (∀ doc, Event.persist doc ∈ (async_calibrate cfg s).2.1 →
      (storeSave prior doc).lookup cfg.unique_id = some 0 ∧
      (storeSave prior doc).lookup other = none) := by
  have hbeq : (other == cfg.unique_id) = false := by
    simp [hne]
  constructor
  · intro doc hmem
    simp only [async_set_cover_position, async_stop_cover] at hmem
    cases hc : cfg.persist_fails with
    | true =>
      rw [hc] at hmem
      simp [persist_not_mem_publishEvents, persist_not_mem_loopEvents] at hmem
    | false =>
      rw [hc] at hmem
      simp [persist_not_mem_publishEvents, persist_not_mem_loopEvents] at hmem
      subst hmem
      refine ⟨?_, by simp [storeSave, List.lookup, hbeq]⟩
      simp [storeSave, List.lookup, async_set_cover_position, async_stop_cover]
  · intro doc hmem
    simp only [async_calibrate] at hmem
    cases hc : cfg.persist_fails with
    | true =>
      rw [hc] at hmem
      simp [persist_not_mem_publishEvents] at hmem
    | false =>
      rw [hc] at hmem
      simp [persist_not_mem_publishEvents] at hmem
      subst hmem
      exact ⟨by simp [storeSave, List.lookup],
             by simp [storeSave, List.lookup, hbeq]⟩

/-- Witness for C10: a different cover identifier previously stored is gone
after either write. -/
theorem C10_persist_single_key_witness :
    "cover2" ≠ cfg0.unique_id ∧
    ((∀ doc, Event.persist doc ∈
        (async_set_cover_position cfg0 none 30 s0).events →
      (storeSave [("cover2", 55)] doc).lookup cfg0.unique_id =
        some (async_set_cover_position cfg0 none 30 s0).state.position ∧
      (storeSave [("cover2", 55)] doc).lookup "cover2" = none) ∧
    (∀ doc, Event.persist doc ∈ (async_calibrate cfg0 s0).2.1 →
      (storeSave [("cover2", 55)] doc).lookup cfg0.unique_id = some 0 ∧
      (storeSave [("cover2", 55)] doc).lookup "cover2" = none)) :=
  ⟨by decide,
   C10_persist_single_key cfg0 none 30 s0 [("cover2", 55)] "cover2"
     (by decide)⟩
